import Mathlib

/-!
Verification development for the kkr-query2xlsx export engine and updater.

The repository ships the updater (`updater.py`) and the test suite of the
core export engine (`main.pyw`); the engine itself is not part of the
sources available here, so its data model and operations are modelled from
the specification document (each such definition carries a doc comment
starting with `Modelled from the spec:`).  The updater definitions are
translated directly from `updater.py`.
-/

set_option autoImplicit false

/-- Modelled from the spec: the error taxonomy of §7 (`Cancelled`,
`TimedOut` tagged with a phase name, `TemplateError`, `FetchError` with the
underlying diagnostic, `WriteError`). -/
inductive CoreError where
  | cancelled
  | timedOut (phase : String)
  | templateError
  | fetchError (msg : String)
  | writeError
deriving DecidableEq, Repr

/-- Modelled from the spec: the DeadlineClock data model of §3:
`{budget: duration|unbounded, started_at: instant, expires_at: instant|none}`.
The budget is `Option Int` (`none` = omitted). -/
structure DeadlineClock where
  budget : Option Int
  started_at : Int
  expires_at : Option Int
deriving DecidableEq, Repr

/-- Modelled from the spec: `new(budget) -> clock` (§4.2).  A zero, negative
or omitted budget means unbounded: `expires_at` is absent. -/
def DeadlineClock.new (budget : Option Int) (now : Int) : DeadlineClock :=
  { budget := budget
    started_at := now
    expires_at :=
      match budget with
      | none => none
      | some b => if b ≤ 0 then none else some (now + b) }

/-- Modelled from the spec: `check(clock)` (§4.2) fails with a `TimedOut`
condition carrying the phase name once `now > expires_at`; with no
`expires_at` the check always passes. -/
def DeadlineClock.check (c : DeadlineClock) (now : Int) (phase : String) :
    Except CoreError Unit :=
  match c.expires_at with
  | none => Except.ok ()
  | some e => if e < now then Except.error (CoreError.timedOut phase) else Except.ok ()

/-- A flat model of the file system: an association list from paths to byte
contents.  The first entry with a given path wins. -/
def FS : Type := List (String × List Nat)

/-- Read the bytes stored at a path, if a file exists there. -/
def FS.read (fs : FS) (p : String) : Option (List Nat) :=
  match fs with
  | [] => none
  | (q, b) :: rest => if q = p then some b else FS.read rest p

/-- Create or overwrite the file at a path. -/
def FS.write (fs : FS) (p : String) (b : List Nat) : FS :=
  (p, b) :: fs

/-- Delete every entry at a path. -/
def FS.remove (fs : FS) (p : String) : FS :=
  match fs with
  | [] => []
  | (q, b) :: rest =>
    if q = p then FS.remove rest p else (q, b) :: FS.remove rest p

theorem FS.read_write_self (fs : FS) (p : String) (b : List Nat) :
    (fs.write p b).read p = some b := by
  simp [FS.write, FS.read]

theorem FS.read_write_ne (fs : FS) (p q : String) (b : List Nat) (h : p ≠ q) :
    (fs.write p b).read q = fs.read q := by
  simp [FS.write, FS.read, h]

theorem FS.read_remove_self (fs : FS) (p : String) :
    (fs.remove p).read p = none := by
  induction fs with
  | nil => simp [FS.remove, FS.read]
  | cons hd tl ih =>
    obtain ⟨q, b⟩ := hd
    by_cases hq : q = p
    · simp [FS.remove, hq, ih]
    · simp [FS.remove, FS.read, hq, ih]

theorem FS.read_remove_ne (fs : FS) (p q : String) (h : p ≠ q) :
    (fs.remove p).read q = fs.read q := by
  induction fs with
  | nil => simp [FS.remove]
  | cons hd tl ih =>
    obtain ⟨r, b⟩ := hd
    by_cases hr : r = p
    · simp [FS.remove, FS.read, hr, h, ih]
    · simp [FS.remove, FS.read, hr, ih]

/-- Observable actions of a writer strategy, recorded as a trace so that
"never opened", "copied exactly once", "save never executed" style
statements can be made about a run. -/
inductive ExAction where
  | checkCancel
  | checkDeadline
  | copyFile (src dst : String)
  | loadWorkbook (path : String)
  | validateSheet (name : String)
  | placeRows (path startCell : String)
  | saveWorkbook (path : String)
  | createFile (path : String)
  | appendRow (path : String)
  | removeFile (path : String)
deriving DecidableEq, Repr

/-- Modelled from the spec: the environment a job runs in.  `cancelAt i`
is the value of the shared cooperative cancel flag of the
CancellationController at the job's `i`-th observable step (§3, §4.1);
`now i` is the wall clock at that step; `parseWb` models opening a file as
a spreadsheet (returning its sheet names, or `none` when the bytes are not
a valid workbook); `render` models the bytes produced by placing the
header/data rows into the copied template and saving it;
`emptyBytes`/`rowBytes` model the bytes the streaming writers emit for an
empty output and for one data row. -/
structure ExportEnv where
  cancelAt : Nat → Bool
  now : Nat → Int
  parseWb : List Nat → Option (List String)
  render : List Nat → List String → List (List Int) → Bool → String → List Nat
  emptyBytes : List String → List Nat
  rowBytes : List Int → List Nat

/-- The running state of one export call: the file system, the index of the
next observable step, and the trace of actions performed so far. -/
structure ExSt where
  fs : FS
  step : Nat
  trace : List ExAction

/-- Sequencing of fallible, state-passing export steps. -/
def exBind {α β : Type} (x : ExSt → Except CoreError α × ExSt)
    (f : α → ExSt → Except CoreError β × ExSt) :
    ExSt → Except CoreError β × ExSt := fun s =>
  match x s with
  | (Except.ok a, s') => f a s'
  | (Except.error e, s') => (Except.error e, s')

/-- A pure export step. -/
def exPure {α : Type} (a : α) : ExSt → Except CoreError α × ExSt :=
  fun s => (Except.ok a, s)

/-- Modelled from the spec: `cancel.raise_if_cancelled()` (§4.1) — fails
with the `Cancelled` condition when the shared flag is set at the current
step. -/
def raise_if_cancelled (env : ExportEnv) : ExSt → Except CoreError Unit × ExSt :=
  fun s =>
  let s' : ExSt := { s with step := s.step + 1, trace := s.trace ++ [ExAction.checkCancel] }
  if env.cancelAt s.step then (Except.error CoreError.cancelled, s')
  else (Except.ok (), s')

/-- Modelled from the spec: a deadline check against the export-phase
DeadlineClock (§4.2, §4.4), performed at the current step's wall-clock
instant. -/
def check_deadline (env : ExportEnv) (clock : DeadlineClock) :
    ExSt → Except CoreError Unit × ExSt := fun s =>
  let s' : ExSt := { s with step := s.step + 1, trace := s.trace ++ [ExAction.checkDeadline] }
  match clock.check (env.now s.step) "export" with
  | Except.ok _ => (Except.ok (), s')
  | Except.error e => (Except.error e, s')

/-- Modelled from the spec: copying the template bytes to the destination
(`shutil.copyfile` in the tests); a missing source is an I/O failure. -/
def copy_file (src dst : String) : ExSt → Except CoreError Unit × ExSt := fun s =>
  match s.fs.read src with
  | none =>
    (Except.error CoreError.writeError,
      { s with step := s.step + 1, trace := s.trace ++ [ExAction.copyFile src dst] })
  | some b =>
    (Except.ok (),
      { s with fs := s.fs.write dst b, step := s.step + 1,
               trace := s.trace ++ [ExAction.copyFile src dst] })

/-- Modelled from the spec: opening the copied destination file as a
workbook (`load_workbook`); bytes that do not parse as a spreadsheet give a
`TemplateError`. -/
def open_workbook (env : ExportEnv) (path : String) :
    ExSt → Except CoreError (List String) × ExSt := fun s =>
  let s' : ExSt := { s with step := s.step + 1, trace := s.trace ++ [ExAction.loadWorkbook path] }
  match s.fs.read path with
  | none => (Except.error CoreError.writeError, s')
  | some b =>
    match env.parseWb b with
    | none => (Except.error CoreError.templateError, s')
    | some sheets => (Except.ok sheets, s')

/-- Modelled from the spec: validating that the requested sheet exists in
the opened workbook, failing with `TemplateError` when it does not. -/
def validate_sheet (sheets : List String) (name : String) :
    ExSt → Except CoreError Unit × ExSt := fun s =>
  let s' : ExSt := { s with step := s.step + 1, trace := s.trace ++ [ExAction.validateSheet name] }
  if name ∈ sheets then (Except.ok (), s') else (Except.error CoreError.templateError, s')

/-- Modelled from the spec: the in-memory row-placement pass (header row if
requested, then the data rows starting at the requested cell). -/
def place_rows (path startCell : String) : ExSt → Except CoreError Unit × ExSt := fun s =>
  (Except.ok (),
    { s with step := s.step + 1, trace := s.trace ++ [ExAction.placeRows path startCell] })

/-- Modelled from the spec: persisting the modified workbook over the
destination file. -/
def save_workbook (env : ExportEnv) (path : String) (cols : List String)
    (rows : List (List Int)) (includeHeader : Bool) (startCell : String) :
    ExSt → Except CoreError Unit × ExSt := fun s =>
  let s' : ExSt := { s with step := s.step + 1, trace := s.trace ++ [ExAction.saveWorkbook path] }
  match s.fs.read path with
  | none => (Except.error CoreError.writeError, s')
  | some b =>
    (Except.ok (), { s' with fs := s.fs.write path (env.render b cols rows includeHeader startCell) })

/-- Modelled from the spec: creating the streaming destination with the
(empty/header-only) output bytes for the given columns. -/
def create_file (env : ExportEnv) (path : String) (cols : List String) :
    ExSt → Except CoreError Unit × ExSt := fun s =>
  (Except.ok (),
    { s with fs := s.fs.write path (env.emptyBytes cols), step := s.step + 1,
             trace := s.trace ++ [ExAction.createFile path] })

/-- Modelled from the spec: appending the bytes of one data row to the
streaming destination. -/
def append_row (env : ExportEnv) (path : String) (r : List Int) :
    ExSt → Except CoreError Unit × ExSt := fun s =>
  let s' : ExSt := { s with step := s.step + 1, trace := s.trace ++ [ExAction.appendRow path] }
  match s.fs.read path with
  | none => (Except.error CoreError.writeError, s')
  | some b => (Except.ok (), { s' with fs := s.fs.write path (b ++ env.rowBytes r) })

/-- Modelled from the spec: the spreadsheet-from-template writer strategy
(§4.4).  Before any destination-directed work it performs one
`raise_if_cancelled` check and one deadline check.  With zero fetched rows
the template file is copied byte-for-byte to the destination without ever
being opened or parsed and without validating the sheet-name/start-cell
parameters (one further deadline check after the copy).  With rows, the
template bytes are copied first, cancellation is re-checked immediately
afterwards, the copied file is opened as a workbook, the requested sheet
is validated, the rows are placed, the deadline is checked after the
row-placement pass, the workbook is saved, and the deadline is checked
again after the final save. -/
def template_export (env : ExportEnv) (clock : DeadlineClock)
    (templatePath dest sheetName startCell : String) (includeHeader : Bool)
    (rows : List (List Int)) (cols : List String) :
    ExSt → Except CoreError Nat × ExSt :=
  exBind (raise_if_cancelled env) (fun _ =>
  exBind (check_deadline env clock) (fun _ =>
  if rows.isEmpty then
    exBind (copy_file templatePath dest) (fun _ =>
    exBind (check_deadline env clock) (fun _ =>
    exPure 0))
  else
    exBind (copy_file templatePath dest) (fun _ =>
    exBind (raise_if_cancelled env) (fun _ =>
    exBind (open_workbook env dest) (fun sheets =>
    exBind (validate_sheet sheets sheetName) (fun _ =>
    exBind (place_rows dest startCell) (fun _ =>
    exBind (check_deadline env clock) (fun _ =>
    exBind (save_workbook env dest cols rows includeHeader startCell) (fun _ =>
    exBind (check_deadline env clock) (fun _ =>
    exPure rows.length))))))))))

/-- Modelled from the spec: the row loop of the delimited-text /
spreadsheet-from-scratch strategy (§4.4): rows are streamed to the
destination, and cancellation and the export clock are observed at a fixed
row-count stride. -/
def write_rows (env : ExportEnv) (clock : DeadlineClock) (dest : String)
    (stride : Nat) :
    List (List Int) → Nat → ExSt → Except CoreError Unit × ExSt
  | [], _ => exPure ()
  | r :: rest, i =>
    if i % stride = 0 then
      exBind (raise_if_cancelled env) (fun _ =>
      exBind (check_deadline env clock) (fun _ =>
      exBind (append_row env dest r) (fun _ =>
      write_rows env clock dest stride rest (i + 1))))
    else
      exBind (append_row env dest r) (fun _ =>
      write_rows env clock dest stride rest (i + 1))

/-- Modelled from the spec: the streaming writer strategy (delimited text
or spreadsheet-from-scratch, §4.4).  It first performs the shared
`raise_if_cancelled` check.  On zero rows the destination is still created
as an empty output, unless the skip-empty-output policy flag is set, in
which case no file is produced and `none` ("nothing written") is returned;
otherwise `some rows_written` is returned. -/
def stream_export (env : ExportEnv) (clock : DeadlineClock) (dest : String)
    (cols : List String) (skipEmpty : Bool) (stride : Nat)
    (rows : List (List Int)) :
    ExSt → Except CoreError (Option Nat) × ExSt :=
  exBind (raise_if_cancelled env) (fun _ =>
  if rows.isEmpty then
    if skipEmpty then exPure none
    else
      exBind (create_file env dest cols) (fun _ =>
      exPure (some 0))
  else
    exBind (create_file env dest cols) (fun _ =>
    exBind (write_rows env clock dest stride rows 0) (fun _ =>
    exPure (some rows.length))))

/-- Modelled from the spec: the OutputGuard (§4.5).  It captures at entry
whether the destination already exists, runs the writer, and on any
exception enforces the common failure rule of §4.4 before the exception
propagates: a destination created by this call is deleted, and a
pre-existing destination is left exactly as it was found (the finished
artifact is only placed over it on confirmed success). -/
def withOutputGuard {α : Type} (dest : String) (s : ExSt)
    (body : ExSt → Except CoreError α × ExSt) : Except CoreError α × ExSt :=
  let pre := s.fs.read dest
  match body s with
  | (Except.ok a, s') => (Except.ok a, s')
  | (Except.error e, s') =>
    match pre with
    | none =>
      (Except.error e,
        { s' with fs := s'.fs.remove dest, trace := s'.trace ++ [ExAction.removeFile dest] })
    | some b => (Except.error e, { s' with fs := s'.fs.write dest b })

/-- Modelled from the spec: the template-strategy entry point
(`run_export_to_template` in the tests): the template writer wrapped in the
OutputGuard, started on a fresh step counter and trace. -/
def run_export_to_template (env : ExportEnv) (clock : DeadlineClock)
    (templatePath dest sheetName startCell : String) (includeHeader : Bool)
    (rows : List (List Int)) (cols : List String) (fs : FS) :
    Except CoreError Nat × ExSt :=
  withOutputGuard dest { fs := fs, step := 0, trace := [] }
    (template_export env clock templatePath dest sheetName startCell includeHeader rows cols)

/-- Modelled from the spec: the streaming-strategy entry point (covering
the delimited-text and spreadsheet-from-scratch writers): the streaming
writer wrapped in the OutputGuard, started on a fresh step counter and
trace. -/
def run_stream_export (env : ExportEnv) (clock : DeadlineClock)
    (dest : String) (cols : List String) (skipEmpty : Bool) (stride : Nat)
    (rows : List (List Int)) (fs : FS) :
    Except CoreError (Option Nat) × ExSt :=
  withOutputGuard dest { fs := fs, step := 0, trace := [] }
    (stream_export env clock dest cols skipEmpty stride rows)

/-- Destination-writing actions (used to state "no write to the
destination ever happens"). -/
def ExAction.isWrite : ExAction → Bool
  | ExAction.copyFile _ _ => true
  | ExAction.createFile _ => true
  | ExAction.appendRow _ => true
  | ExAction.saveWorkbook _ => true
  | _ => false

/-- Actions that open, parse or validate the template workbook (used to
state the zero-rows special case of the template strategy). -/
def ExAction.isOpenOrValidate : ExAction → Bool
  | ExAction.loadWorkbook _ => true
  | ExAction.validateSheet _ => true
  | ExAction.placeRows _ _ => true
  | _ => false

/-- Copy actions. -/
def ExAction.isCopy : ExAction → Bool
  | ExAction.copyFile _ _ => true
  | _ => false

/-- Workbook-save actions. -/
def ExAction.isSave : ExAction → Bool
  | ExAction.saveWorkbook _ => true
  | _ => false

/-- Workbook-open actions. -/
def ExAction.isLoad : ExAction → Bool
  | ExAction.loadWorkbook _ => true
  | _ => false

/-- Events of one FetchExecutor call, in order: the watchdog helper is
started, polls the cancel flag and the fetch deadline, possibly issues the
out-of-band interrupt, and is stopped and joined before control returns. -/
inductive FetchEvent where
  | startWatchdog
  | poll (i : Nat)
  | interrupt
  | stopWatchdog
  | joinWatchdog
deriving DecidableEq, Repr

/-- Modelled from the spec: the first watchdog poll (if any, among the
`polls` polls that happen before the blocking call would return naturally)
at which the cancel flag is set or the fetch deadline has expired
(§4.3). -/
def watchdog_first_trigger (cancelAt expiredAt : Nat → Bool) (polls : Nat) :
    Option Nat :=
  (List.range polls).find? (fun i => cancelAt i || expiredAt i)

/-- Modelled from the spec: the FetchExecutor (§4.3).  The blocking native
call runs on the calling path while the watchdog polls for cancellation or
fetch-deadline expiry; `polls` is the number of watchdog polls that happen
before the blocking call would return naturally, and `natural` is the
natural outcome of the blocking call (rows, or a native driver error
message).  If the watchdog triggers first it interrupts the call and the
executor surfaces `Cancelled` when the cancel flag was set at the
triggering poll (cancellation takes priority over timeout at the same
poll), else `TimedOut "fetch"`; otherwise the natural outcome is returned,
a driver error being translated to `FetchError`.  On every path the
watchdog is stopped and joined before control returns. -/
def fetch_executor (cancelAt expiredAt : Nat → Bool) (polls : Nat)
    (natural : Except String (List (List Int))) :
    Except CoreError (List (List Int)) × List FetchEvent :=
  match watchdog_first_trigger cancelAt expiredAt polls with
  | some i =>
    let evs := FetchEvent.startWatchdog ::
      ((List.range (i + 1)).map FetchEvent.poll ++ [FetchEvent.interrupt]) ++
      [FetchEvent.stopWatchdog, FetchEvent.joinWatchdog]
    if cancelAt i then (Except.error CoreError.cancelled, evs)
    else (Except.error (CoreError.timedOut "fetch"), evs)
  | none =>
    let evs := FetchEvent.startWatchdog ::
      (List.range polls).map FetchEvent.poll ++
      [FetchEvent.stopWatchdog, FetchEvent.joinWatchdog]
    match natural with
    | Except.ok rows => (Except.ok rows, evs)
    | Except.error msg => (Except.error (CoreError.fetchError msg), evs)

/-- The watchdog was stopped and joined as the final two events before
control returned, so it cannot outlive the call. -/
def watchdogRetired (evs : List FetchEvent) : Prop :=
  (∃ l, evs = l ++ [FetchEvent.stopWatchdog, FetchEvent.joinWatchdog]) ∧
    evs.count FetchEvent.joinWatchdog = 1 ∧
    evs.count FetchEvent.stopWatchdog = 1

/-- Characters stripped by Python `str.strip()` (ASCII whitespace). -/
def pyIsSpace (c : Char) : Bool :=
  c = ' ' || c = '\t' || c = '\n' || c = '\r' || c = '\x0b' || c = '\x0c'

/-- Python `str.strip()`. -/
def pyStrip (s : String) : String :=
  String.mk (((s.data.dropWhile pyIsSpace).reverse.dropWhile pyIsSpace).reverse)

/-- Python `str.isdigit()` (restricted to ASCII digits): true on a
non-empty all-digit string. -/
def pyIsDigit (s : String) : Bool :=
  !s.data.isEmpty && s.data.all Char.isDigit

/-- Python `int(s)` on an all-digit string (arbitrary precision, so the
defensive `OverflowError` handler of the source is unreachable). -/
def pyDigitsToNat (s : String) : Nat :=
  s.data.foldl (fun acc c => acc * 10 + (c.toNat - 48)) 0

/-- Python truthiness of an `str | None` value: `None` and `""` are falsy. -/
def pyTruthy : Option String → Bool
  | none => false
  | some s => !s.data.isEmpty

/-- `updater.py`: `_UPD_MAX_RETRY_AFTER_SECONDS = 7 * 24 * 60 * 60`. -/
def _UPD_MAX_RETRY_AFTER_SECONDS : Nat := 7 * 24 * 60 * 60

/-- `updater.py`: `_UPD_MAX_RESET_FUTURE_SECONDS = 365 * 24 * 60 * 60`. -/
def _UPD_MAX_RESET_FUTURE_SECONDS : Nat := 365 * 24 * 60 * 60

/-- The three response headers `_parse_retry_hint` and
`_classify_update_error` read (each absent or a string); a falsy headers
object (`None` or empty) is modelled as `none` at the use sites. -/
structure Headers where
  retry_after : Option String
  x_ratelimit_reset : Option String
  x_ratelimit_remaining : Option String
deriving DecidableEq, Repr

/-- The runtime environment of the updater's time handling: `now` models
`int(time.time())`, `fmtLocal` models
`time.strftime("%Y-%m-%d %H:%M:%S", time.localtime(ts))` (returning `none`
when strftime raises, as in `_format_local_ts`), and `fmtReset` models
`datetime.fromtimestamp(ts).strftime("%Y-%m-%d %H:%M:%S")` under the
source's `try`/`except` (returning `none` when it raises). -/
structure TimeEnv where
  now : Nat
  fmtLocal : Nat → Option String
  fmtReset : Nat → Option String

/-- `updater.py` `_format_local_ts`: format a timestamp, `none` on
failure. -/
def _format_local_ts (env : TimeEnv) (ts : Nat) : Option String :=
  env.fmtLocal ts

/-- `updater.py` `_parse_retry_hint`, the `retry_after_ts` local: a
non-empty numeric `retry-after` within the bound yields the formatted
local time of `now + seconds`. -/
def retry_after_ts_of (env : TimeEnv) (ra? : Option String) : Option String :=
  match ra? with
  | none => none
  | some ra =>
    let s := pyStrip ra
    if s.data.isEmpty then none
    else if pyIsDigit s then
      let seconds := pyDigitsToNat s
      if seconds ≤ _UPD_MAX_RETRY_AFTER_SECONDS then
        _format_local_ts env (env.now + seconds)
      else none
    else none

/-- `updater.py` `_parse_retry_hint`, the `retry_after_fallback_str`
local: a non-empty non-numeric `retry-after` is kept, truncated to 64
characters. -/
def retry_after_fallback_of (ra? : Option String) : Option String :=
  match ra? with
  | none => none
  | some ra =>
    let s := pyStrip ra
    if s.data.isEmpty then none
    else if pyIsDigit s then none
    else some (String.mk (s.data.take 64))

/-- `updater.py` `_parse_retry_hint`, the early-return `x-ratelimit-reset`
branch: a numeric reset timestamp within the future bound is formatted and
returned; on any failed condition (or a raising strftime, i.e. `fmtReset`
returning `none`) the branch falls through. -/
def ratelimit_reset_return (env : TimeEnv) (rr? : Option String) : Option String :=
  match rr? with
  | none => none
  | some rr =>
    let s := pyStrip rr
    if pyIsDigit s then
      let reset_ts := pyDigitsToNat s
      if reset_ts ≤ env.now + _UPD_MAX_RESET_FUTURE_SECONDS then
        env.fmtReset reset_ts
      else none
    else none

/-- `updater.py` `_parse_retry_hint`: derive a "try again after" hint from
the `retry-after` and `x-ratelimit-reset` headers.  The formatted
`x-ratelimit-reset` instant is returned in preference; otherwise the
formatted `retry-after` instant if truthy; otherwise the raw fallback
string (or `None`). -/
def _parse_retry_hint (env : TimeEnv) (headers : Option Headers) : Option String :=
  match headers with
  | none => none
  | some h =>
    match ratelimit_reset_return env h.x_ratelimit_reset with
    | some r => some r
    | none =>
      if pyTruthy (retry_after_ts_of env h.retry_after) then
        retry_after_ts_of env h.retry_after
      else retry_after_fallback_of h.retry_after

/-- The exception taxonomy `_classify_update_error` branches on, in the
source's `isinstance` order: `TimeoutError | socket.timeout`, `HTTPError`
(with status code and headers), `URLError` (whose `reason` may or may not
be a timeout), `JSONDecodeError | UnicodeDecodeError | ValueError`, and
anything else. -/
inductive PyExc where
  | timeoutExc
  | httpError (code : Nat) (headers : Option Headers)
  | urlErrorTimeout
  | urlErrorOther
  | jsonExc
  | otherExc
deriving DecidableEq, Repr

/-- The parameter dictionary returned by `_classify_update_error`
(possible keys: `status`, `retry_at`). -/
structure ClassifyParams where
  status : Option Nat
  retry_at : Option String
deriving DecidableEq, Repr

/-- `updater.py`: `str(headers.get("x-ratelimit-remaining", "")).strip()`
with `headers = exc.headers or {}`. -/
def ratelimit_remaining : Option Headers → String
  | none => ""
  | some h => pyStrip (h.x_ratelimit_remaining.getD "")

/-- `updater.py` `_classify_update_error`: map an exception to a message
kind and parameters.  HTTP status 429 is always `rate_limited`; status 403
is `rate_limited` exactly when the parsed retry hint is truthy or
`x-ratelimit-remaining` (stripped) equals `"0"`; any other `HTTPError`
(and a 403 without those signals) is `http` with its status. -/
def _classify_update_error (env : TimeEnv) (exc : PyExc) : String × ClassifyParams :=
  match exc with
  | PyExc.timeoutExc => ("timeout", ⟨none, none⟩)
  | PyExc.httpError status headers =>
    let retry_at := _parse_retry_hint env headers
    let remaining := ratelimit_remaining headers
    if status = 429 then ("rate_limited", ⟨some status, retry_at⟩)
    else if status = 403 ∧ (pyTruthy retry_at = true ∨ remaining = "0") then
      ("rate_limited", ⟨some status, retry_at⟩)
    else ("http", ⟨some status, none⟩)
  | PyExc.urlErrorTimeout => ("timeout", ⟨none, none⟩)
  | PyExc.urlErrorOther => ("network", ⟨none, none⟩)
  | PyExc.jsonExc => ("json", ⟨none, none⟩)
  | PyExc.otherExc => ("unknown", ⟨none, none⟩)

/-- `updater.py` `I18N_UPDATER`: the updater's two-language string
catalog. -/
def I18N_UPDATER : List (String × List (String × String)) :=
  [ ("en",
     [ ("TITLE", "Update"),
       ("UPD_ERR_NETWORK", "Could not reach GitHub (network/DNS problem). Check your connection and try again."),
       ("UPD_ERR_TIMEOUT", "GitHub did not respond in time (timeout). Try again in a moment."),
       ("UPD_ERR_HTTP", "GitHub returned HTTP {status} while checking updates."),
       ("UPD_ERR_RATE_LIMITED", "GitHub returned HTTP {status}. It looks like rate limiting. Try again after: {retry_at}."),
       ("UPD_ERR_JSON", "Received an invalid response from GitHub (JSON parse error)."),
       ("UPD_ERR_GENERIC", "Failed to check or download updates."),
       ("UPD_ERR_BUNDLE_ONLY", "Updater works only for the EXE package (Release ZIP). For source code use `git pull` or download a newer ZIP."),
       ("UPD_ERR_WAIT_CLOSE_TIMEOUT", "Timed out waiting for the app to close."),
       ("UPD_ERR_CLOSE_APP_FIRST", "Close the application before updating."),
       ("UPD_ERR_NO_WINDOWS_ZIP", "No Windows ZIP asset found in latest release."),
       ("UPD_ERR_MISSING_DOWNLOAD_URL", "Release asset is missing a download URL."),
       ("UPD_ERR_UNPACK", "Failed to unpack update package."),
       ("UPD_ERR_LAYOUT", "Update package layout not recognized."),
       ("UPD_ERR_APPLY", "Failed to apply update."),
       ("UPD_INFO_DONE", "Updated to {version}."),
       ("UPD_LATEST_VERSION_LABEL", "the latest version"),
       ("UPD_ASK_LAUNCH", "Launch the application?"),
       ("UPD_ERR_LAUNCH", "Failed to launch the application."),
       ("UPD_UNKNOWN", "unknown") ]),
    ("pl",
     [ ("TITLE", "Aktualizacja"),
       ("UPD_ERR_NETWORK", "Brak połączenia z GitHub (problem sieci/DNS). Sprawdź połączenie i spróbuj ponownie."),
       ("UPD_ERR_TIMEOUT", "GitHub nie odpowiedział na czas (timeout). Spróbuj ponownie za chwilę."),
       ("UPD_ERR_HTTP", "GitHub zwrócił HTTP {status} podczas sprawdzania aktualizacji."),
       ("UPD_ERR_RATE_LIMITED", "GitHub zwrócił HTTP {status}. Wygląda na limit zapytań. Spróbuj ponownie po: {retry_at}."),
       ("UPD_ERR_JSON", "Otrzymano nieprawidłową odpowiedź z GitHub (błąd parsowania JSON)."),
       ("UPD_ERR_GENERIC", "Nie udało się sprawdzić lub pobrać aktualizacji."),
       ("UPD_ERR_BUNDLE_ONLY", "Updater działa tylko dla paczki EXE (Release ZIP). Dla źródeł użyj `git pull` lub pobierz nowszy ZIP."),
       ("UPD_ERR_WAIT_CLOSE_TIMEOUT", "Przekroczono czas oczekiwania na zamknięcie aplikacji."),
       ("UPD_ERR_CLOSE_APP_FIRST", "Zamknij aplikację przed aktualizacją."),
       ("UPD_ERR_NO_WINDOWS_ZIP", "Nie znaleziono paczki ZIP dla Windows w najnowszym wydaniu."),
       ("UPD_ERR_MISSING_DOWNLOAD_URL", "Brakuje adresu URL do pobrania zasobu wydania."),
       ("UPD_ERR_UNPACK", "Nie udało się rozpakować paczki aktualizacji."),
       ("UPD_ERR_LAYOUT", "Nie rozpoznano struktury paczki aktualizacji."),
       ("UPD_ERR_APPLY", "Nie udało się zastosować aktualizacji."),
       ("UPD_INFO_DONE", "Zaktualizowano do {version}."),
       ("UPD_LATEST_VERSION_LABEL", "najnowszej wersji"),
       ("UPD_ASK_LAUNCH", "Uruchomić aplikację?"),
       ("UPD_ERR_LAUNCH", "Nie udało się uruchomić aplikacji."),
       ("UPD_UNKNOWN", "nieznane") ]) ]

/-- Python `a or b` on an `str | None` left operand: the left value if
truthy, else the right. -/
def pyOrStr (a : Option String) (b : String) : String :=
  match a with
  | none => b
  | some s => if s.data.isEmpty then b else s

/-- The language dictionary for a language code:
`I18N_UPDATER.get(lang, {})`. -/
def langDict (lang : String) : List (String × String) :=
  (List.lookup lang I18N_UPDATER).getD []

/-- `updater.py` `t_upd`, lookup part:
`I18N_UPDATER.get(lang, {}).get(key) or I18N_UPDATER["en"].get(key) or
key`. -/
def t_upd_plain (lang key : String) : String :=
  pyOrStr (List.lookup key (langDict lang))
    (pyOrStr (List.lookup key (langDict "en")) key)

/-- Scan forward to the closing brace of a `{name}` placeholder, returning
the name and the remainder; `none` when the brace is never closed. -/
def scanName : List Char → Option (List Char × List Char)
  | [] => none
  | c :: rest =>
    if c = '\x7d' then some ([], rest)
    else
      match scanName rest with
      | some (nm, r) => some (c :: nm, r)
      | none => none

/-- One left-to-right pass of Python `str.format(**kwargs)` over the
template's characters (fuel-indexed to stay structural; the fuel is the
character count, which one pass never exhausts).  A placeholder whose name
is missing from `kwargs`, or an unclosed brace, raises (`Except.error`),
as `str.format` does. -/
def formatChars (kwargs : List (String × String)) :
    Nat → List Char → Except Unit (List Char)
  | _, [] => Except.ok []
  | 0, s => Except.ok s
  | fuel + 1, c :: rest =>
    if c = '\x7b' then
      match scanName rest with
      | none => Except.error ()
      | some (nm, after) =>
        match List.lookup (String.mk nm) kwargs with
        | none => Except.error ()
        | some v =>
          match formatChars kwargs fuel after with
          | Except.ok l => Except.ok (v.data ++ l)
          | Except.error e => Except.error e
    else
      match formatChars kwargs fuel rest with
      | Except.ok l => Except.ok (c :: l)
      | Except.error e => Except.error e

/-- Python `s.format(**kwargs)` (for the simple `{name}` placeholders the
catalog uses). -/
def pyFormat (s : String) (kwargs : List (String × String)) : Except Unit String :=
  match formatChars kwargs s.data.length s.data with
  | Except.ok l => Except.ok (String.mk l)
  | Except.error _ => Except.error ()

/-- `updater.py` `t_upd`: catalog lookup followed by
`s.format(**kwargs) if kwargs else s`; the format step may raise. -/
def t_upd (lang key : String) (kwargs : List (String × String)) :
    Except Unit String :=
  if kwargs.isEmpty then Except.ok (t_upd_plain lang key)
  else pyFormat (t_upd_plain lang key) kwargs

/-- Python `str(x)` on an `int | None`. -/
def pyStrOfStatus : Option Nat → String
  | none => "None"
  | some n => toString n

/-- Extract the value of a fallible step inside `try:`, falling back when
it raised. -/
def okOr (x : Except Unit String) (fallback : String) : String :=
  match x with
  | Except.ok s => s
  | Except.error _ => fallback

/-- `updater.py` `_build_update_error_message`: map an exception to a
user-facing message.  The whole classification/formatting body runs inside
`try:`; on any exception it falls through to the generic
`t_upd("UPD_ERR_GENERIC")` message.  The classification step is passed as
a fallible function so that a raising classifier (as in the tests, where
`_parse_retry_hint` is patched to raise) is expressible; the direct call
of the source is recovered with
`fun e => Except.ok (_classify_update_error env e)`. -/
def _build_update_error_message
    (classify : PyExc → Except Unit (String × ClassifyParams))
    (lang : String) (exc : PyExc) : String :=
  let fallback := t_upd_plain lang "UPD_ERR_GENERIC"
  match classify exc with
  | Except.error _ => fallback
  | Except.ok (kind, params) =>
    if kind = "network" then okOr (t_upd lang "UPD_ERR_NETWORK" []) fallback
    else if kind = "timeout" then okOr (t_upd lang "UPD_ERR_TIMEOUT" []) fallback
    else if kind = "http" then
      okOr (t_upd lang "UPD_ERR_HTTP" [("status", pyStrOfStatus params.status)]) fallback
    else if kind = "rate_limited" then
      let retry_at := pyOrStr params.retry_at (t_upd_plain lang "UPD_UNKNOWN")
      let status : Nat :=
        match params.status with
        | none => 429
        | some n => if n = 0 then 429 else n
      okOr
        (t_upd lang "UPD_ERR_RATE_LIMITED"
          [("status", toString status), ("retry_at", retry_at)]) fallback
    else if kind = "json" then okOr (t_upd lang "UPD_ERR_JSON" []) fallback
    else fallback

theorem FS.read_write (fs : FS) (p q : String) (b : List Nat) :
    (fs.write p b).read q = if p = q then some b else fs.read q := by
  by_cases h : p = q
  · subst h; simp [FS.read_write_self]
  · simp [FS.read_write_ne fs p q b h, h]

theorem FS.read_remove (fs : FS) (p q : String) :
    (fs.remove p).read q = if p = q then none else fs.read q := by
  by_cases h : p = q
  · subst h; simp [FS.read_remove_self]
  · simp [FS.read_remove_ne fs p q h, h]

/-- C8: a deadline clock constructed from a zero, negative or omitted
timeout budget is unbounded: its expiry instant is absent and every check,
at any time and for any phase, passes instead of raising `TimedOut`. -/
theorem deadline_clock_unbounded (budget : Option Int) (t0 t : Int) (phase : String)
    (h : budget = none ∨ ∃ b, budget = some b ∧ b ≤ 0) :
    (DeadlineClock.new budget t0).expires_at = none ∧
    DeadlineClock.check (DeadlineClock.new budget t0) t phase = Except.ok () := by
  rcases h with h | ⟨b, hb, hb0⟩
  · subst h; simp [DeadlineClock.new, DeadlineClock.check]
  · subst hb; simp [DeadlineClock.new, DeadlineClock.check, hb0]

theorem deadline_clock_unbounded_witness :
    ((some (-1) : Option Int) = none ∨ ∃ b, (some (-1) : Option Int) = some b ∧ b ≤ 0) ∧
    ((DeadlineClock.new (some (-1)) 5).expires_at = none ∧
     DeadlineClock.check (DeadlineClock.new (some (-1)) 5) 1000000 "export" = Except.ok ()) :=
  ⟨Or.inr ⟨-1, rfl, by decide⟩,
   deadline_clock_unbounded (some (-1)) 5 1000000 "export" (Or.inr ⟨-1, rfl, by decide⟩)⟩

/-- C6: on every exit path of the fetch executor (normal return, watchdog
cancellation, watchdog timeout, or a native driver error) the watchdog
helper is stopped and joined, exactly once, as the final events before
control returns — it never outlives the call. -/
theorem fetch_watchdog_retired (cancelAt expiredAt : Nat → Bool) (polls : Nat)
    (natural : Except String (List (List Int))) :
    watchdogRetired (fetch_executor cancelAt expiredAt polls natural).2 := by
  have hpoll : ∀ n : Nat,
      ((List.range n).map FetchEvent.poll).count FetchEvent.joinWatchdog = 0 ∧
      ((List.range n).map FetchEvent.poll).count FetchEvent.stopWatchdog = 0 := by
    intro n
    constructor <;> · rw [List.count_eq_zero]; simp [List.mem_map]
  unfold fetch_executor
  cases h : watchdog_first_trigger cancelAt expiredAt polls with
  | some i =>
    by_cases hc : cancelAt i <;>
      simp only [hc, if_true, if_false, Bool.false_eq_true] <;>
      · refine ⟨⟨FetchEvent.startWatchdog ::
          ((List.range (i + 1)).map FetchEvent.poll ++ [FetchEvent.interrupt]), by simp⟩, ?_, ?_⟩ <;>
          simp [List.count_append, List.count_cons, (hpoll (i + 1)).1, (hpoll (i + 1)).2]
  | none =>
    cases natural with
    | ok rows =>
      refine ⟨⟨FetchEvent.startWatchdog :: (List.range polls).map FetchEvent.poll, by simp⟩, ?_, ?_⟩ <;>
        simp [List.count_append, List.count_cons, (hpoll polls).1, (hpoll polls).2]
    | error msg =>
      refine ⟨⟨FetchEvent.startWatchdog :: (List.range polls).map FetchEvent.poll, by simp⟩, ?_, ?_⟩ <;>
        simp [List.count_append, List.count_cons, (hpoll polls).1, (hpoll polls).2]

/-- C7: when the watchdog interrupts the fetch, the surfaced error matches
the trigger observed at the first firing poll, with cancellation taking
priority over timeout when both are observed at the same poll: the result
is `Cancelled` whenever the cancel flag was set there, and `TimedOut
"fetch"` only when the cancel flag was clear and the deadline had
expired. -/
theorem fetch_trigger_priority (cancelAt expiredAt : Nat → Bool) (polls : Nat)
    (natural : Except String (List (List Int))) (i : Nat)
    (h : watchdog_first_trigger cancelAt expiredAt polls = some i) :
    (cancelAt i = true →
      (fetch_executor cancelAt expiredAt polls natural).1 = Except.error CoreError.cancelled) ∧
    (cancelAt i = false →
      expiredAt i = true ∧
      (fetch_executor cancelAt expiredAt polls natural).1 =
        Except.error (CoreError.timedOut "fetch")) := by
  have h' : (cancelAt i = true ∨ expiredAt i = true) ∧ i < polls ∧
      ∀ j < i, cancelAt j = false ∧ expiredAt j = false := by
    simpa [watchdog_first_trigger] using h
  have hp : (cancelAt i || expiredAt i) = true := by
    rcases h'.1 with hh | hh <;> simp [hh]
  constructor
  · intro hc
    simp [fetch_executor, h, hc]
  · intro hc
    have he : expiredAt i = true := by simpa [hc] using hp
    exact ⟨he, by simp [fetch_executor, h, hc]⟩

theorem fetch_trigger_priority_witness :
    (watchdog_first_trigger (fun i => decide (2 ≤ i)) (fun i => decide (2 ≤ i)) 5 = some 2) ∧
    ((fun i : Nat => decide (2 ≤ i)) 2 = true →
      (fetch_executor (fun i => decide (2 ≤ i)) (fun i => decide (2 ≤ i)) 5
        (Except.ok [])).1 = Except.error CoreError.cancelled) :=
  ⟨by decide,
   (fetch_trigger_priority (fun i => decide (2 ≤ i)) (fun i => decide (2 ≤ i)) 5
     (Except.ok []) 2 (by decide)).1⟩

instance instDecEqExcept {ε α : Type} [DecidableEq ε] [DecidableEq α] :
    DecidableEq (Except ε α) := fun x y =>
  match x, y with
  | Except.error e, Except.error e' =>
    if h : e = e' then Decidable.isTrue (by rw [h])
    else Decidable.isFalse (fun hh => h (by injection hh))
  | Except.error _, Except.ok _ => Decidable.isFalse (fun hh => Except.noConfusion hh)
  | Except.ok _, Except.error _ => Decidable.isFalse (fun hh => Except.noConfusion hh)
  | Except.ok a, Except.ok b =>
    if h : a = b then Decidable.isTrue (by rw [h])
    else Decidable.isFalse (fun hh => h (by injection hh))

theorem withOutputGuard_error_read {α : Type} (dest : String) (s : ExSt)
    (body : ExSt → Except CoreError α × ExSt) (e : CoreError)
    (h : (withOutputGuard dest s body).1 = Except.error e) :
    ((withOutputGuard dest s body).2).fs.read dest = s.fs.read dest := by
  rcases hb : body s with ⟨res, s1⟩
  have hg : withOutputGuard dest s body =
      match body s with
      | (Except.ok a, s') => (Except.ok a, s')
      | (Except.error e', s') =>
        match s.fs.read dest with
        | none =>
          (Except.error e',
            { s' with fs := s'.fs.remove dest, trace := s'.trace ++ [ExAction.removeFile dest] })
        | some b => (Except.error e', { s' with fs := s'.fs.write dest b }) := rfl
  rw [hg, hb] at h ⊢
  cases res with
  | ok a => simp at h
  | error e' =>
    cases hpre : s.fs.read dest with
    | none => simp [hpre, FS.read_remove_self]
    | some b => simp [hpre, FS.read_write_self]

/-- C1: for every export job and both writer strategies, if the call
raises any exception then the destination path afterwards reads exactly as
it did before the call: a destination file created by this call has been
deleted before the exception propagates, and a destination file that
already existed before the call has exactly the same bytes as before. -/
theorem export_failure_cleanup (env : ExportEnv) (clock : DeadlineClock)
    (tp d sn sc : String) (ih : Bool) (rows : List (List Int))
    (cols : List String) (skipEmpty : Bool) (stride : Nat) (fs : FS) :
    (∀ e, (run_export_to_template env clock tp d sn sc ih rows cols fs).1 = Except.error e →
      ((run_export_to_template env clock tp d sn sc ih rows cols fs).2).fs.read d = fs.read d) ∧
    (∀ e, (run_stream_export env clock d cols skipEmpty stride rows fs).1 = Except.error e →
      ((run_stream_export env clock d cols skipEmpty stride rows fs).2).fs.read d = fs.read d) :=
  ⟨fun e h => withOutputGuard_error_read d _ _ e h,
   fun e h => withOutputGuard_error_read d _ _ e h⟩

/-- A concrete environment in which the cancel flag is set from step 0
onwards. -/
def envCancelledNow : ExportEnv :=
  { cancelAt := fun _ => true
    now := fun _ => 0
    parseWb := fun _ => some ["Sheet1"]
    render := fun b _ _ _ _ => b
    emptyBytes := fun _ => []
    rowBytes := fun _ => [0] }

/-- An unbounded export clock for witnesses. -/
def clockW : DeadlineClock := DeadlineClock.new none 0

theorem export_failure_cleanup_witness :
    ((run_export_to_template envCancelledNow clockW "t" "d" "Sheet1" "A1" true
        [[1]] ["c"] [("d", [7]), ("t", [1])]).1 = Except.error CoreError.cancelled →
      ((run_export_to_template envCancelledNow clockW "t" "d" "Sheet1" "A1" true
        [[1]] ["c"] [("d", [7]), ("t", [1])]).2).fs.read "d" = FS.read [("d", [7]), ("t", [1])] "d") ∧
    ((run_export_to_template envCancelledNow clockW "t" "d" "Sheet1" "A1" true
        [[1]] ["c"] [("d", [7]), ("t", [1])]).1 = Except.error CoreError.cancelled) ∧
    ((run_export_to_template envCancelledNow clockW "t" "d" "Sheet1" "A1" true
        [[1]] ["c"] [("d", [7]), ("t", [1])]).2).fs.read "d" = some [7] :=
  ⟨(export_failure_cleanup envCancelledNow clockW "t" "d" "Sheet1" "A1" true
      [[1]] ["c"] false 10 [("d", [7]), ("t", [1])]).1 CoreError.cancelled,
   by decide, by decide⟩

/-- C3: both writer strategies perform a cancellation check before any
destination-directed work: when the cancel flag is already set at step 0
(the start of the export phase, right after fetch), the call raises
`Cancelled`, the file system is completely untouched at every path (so no
destination file is created and no write to the destination ever
happens), and the trace contains no destination-writing action. -/
theorem export_cancel_before_write (env : ExportEnv) (clock : DeadlineClock)
    (tp d sn sc : String) (ih : Bool) (rows : List (List Int))
    (cols : List String) (skipEmpty : Bool) (stride : Nat) (fs : FS)
    (hc : env.cancelAt 0 = true) :
    ((run_export_to_template env clock tp d sn sc ih rows cols fs).1 =
        Except.error CoreError.cancelled ∧
      (∀ p, ((run_export_to_template env clock tp d sn sc ih rows cols fs).2).fs.read p =
        fs.read p) ∧
      ((run_export_to_template env clock tp d sn sc ih rows cols fs).2).trace.countP
        ExAction.isWrite = 0) ∧
    ((run_stream_export env clock d cols skipEmpty stride rows fs).1 =
        Except.error CoreError.cancelled ∧
      (∀ p, ((run_stream_export env clock d cols skipEmpty stride rows fs).2).fs.read p =
        fs.read p) ∧
      ((run_stream_export env clock d cols skipEmpty stride rows fs).2).trace.countP
        ExAction.isWrite = 0) := by
  constructor
  · have hbody : template_export env clock tp d sn sc ih rows cols
        { fs := fs, step := 0, trace := [] } =
        (Except.error CoreError.cancelled,
          { fs := fs, step := 1, trace := [ExAction.checkCancel] }) := by
      simp [template_export, exBind, raise_if_cancelled, hc]
    cases hpre : fs.read d with
    | none =>
      have : run_export_to_template env clock tp d sn sc ih rows cols fs =
          (Except.error CoreError.cancelled,
            { fs := fs.remove d, step := 1,
              trace := [ExAction.checkCancel, ExAction.removeFile d] }) := by
        simp [run_export_to_template, withOutputGuard, hbody, hpre]
      rw [this]
      refine ⟨rfl, ?_, by simp [List.countP_cons, ExAction.isWrite]⟩
      intro p
      rw [FS.read_remove]
      by_cases hp : d = p
      · subst hp; simp [hpre]
      · simp [hp]
    | some b =>
      have : run_export_to_template env clock tp d sn sc ih rows cols fs =
          (Except.error CoreError.cancelled,
            { fs := fs.write d b, step := 1, trace := [ExAction.checkCancel] }) := by
        simp [run_export_to_template, withOutputGuard, hbody, hpre]
      rw [this]
      refine ⟨rfl, ?_, by simp [List.countP_cons, ExAction.isWrite]⟩
      intro p
      rw [FS.read_write]
      by_cases hp : d = p
      · subst hp; simp [hpre]
      · simp [hp]
  · have hbody : stream_export env clock d cols skipEmpty stride rows
        { fs := fs, step := 0, trace := [] } =
        (Except.error CoreError.cancelled,
          { fs := fs, step := 1, trace := [ExAction.checkCancel] }) := by
      simp [stream_export, exBind, raise_if_cancelled, hc]
    cases hpre : fs.read d with
    | none =>
      have : run_stream_export env clock d cols skipEmpty stride rows fs =
          (Except.error CoreError.cancelled,
            { fs := fs.remove d, step := 1,
              trace := [ExAction.checkCancel, ExAction.removeFile d] }) := by
        simp [run_stream_export, withOutputGuard, hbody, hpre]
      rw [this]
      refine ⟨rfl, ?_, by simp [List.countP_cons, ExAction.isWrite]⟩
      intro p
      rw [FS.read_remove]
      by_cases hp : d = p
      · subst hp; simp [hpre]
      · simp [hp]
    | some b =>
      have : run_stream_export env clock d cols skipEmpty stride rows fs =
          (Except.error CoreError.cancelled,
            { fs := fs.write d b, step := 1, trace := [ExAction.checkCancel] }) := by
        simp [run_stream_export, withOutputGuard, hbody, hpre]
      rw [this]
      refine ⟨rfl, ?_, by simp [List.countP_cons, ExAction.isWrite]⟩
      intro p
      rw [FS.read_write]
      by_cases hp : d = p
      · subst hp; simp [hpre]
      · simp [hp]

theorem export_cancel_before_write_witness :
    (envCancelledNow.cancelAt 0 = true) ∧
    ((run_export_to_template envCancelledNow clockW "t" "d" "Sheet1" "A1" true
        [[1]] ["c"] [("t", [1])]).1 = Except.error CoreError.cancelled ∧
      ((run_export_to_template envCancelledNow clockW "t" "d" "Sheet1" "A1" true
        [[1]] ["c"] [("t", [1])]).2).fs.read "d" = FS.read [("t", [1])] "d") :=
  ⟨rfl,
   ((export_cancel_before_write envCancelledNow clockW "t" "d" "Sheet1" "A1" true
      [[1]] ["c"] false 10 [("t", [1])] rfl).1).1,
   (((export_cancel_before_write envCancelledNow clockW "t" "d" "Sheet1" "A1" true
      [[1]] ["c"] false 10 [("t", [1])] rfl).1).2).1 "d"⟩

/-- C5: for a streaming-strategy job (delimited text or
spreadsheet-from-scratch) whose fetch returned zero rows and which is not
cancelled at the export check, the outcome is a deterministic function of
the skip-empty-output policy flag: with the flag set no file is produced
(every path of the file system is untouched) and the caller is told
nothing was written (`none`); with the flag clear the call reports
`some 0` and the destination is created with the empty output bytes. -/
theorem stream_zero_rows_policy (env : ExportEnv) (clock : DeadlineClock)
    (d : String) (cols : List String) (stride : Nat) (fs : FS)
    (hc : env.cancelAt 0 = false) :
    ((run_stream_export env clock d cols true stride [] fs).1 = Except.ok none ∧
      (∀ p, ((run_stream_export env clock d cols true stride [] fs).2).fs.read p =
        fs.read p)) ∧
    ((run_stream_export env clock d cols false stride [] fs).1 = Except.ok (some 0) ∧
      ((run_stream_export env clock d cols false stride [] fs).2).fs.read d =
        some (env.emptyBytes cols)) := by
  constructor
  · have hbody : stream_export env clock d cols true stride []
        { fs := fs, step := 0, trace := [] } =
        (Except.ok none, { fs := fs, step := 1, trace := [ExAction.checkCancel] }) := by
      simp [stream_export, exBind, exPure, raise_if_cancelled, hc]
    have : run_stream_export env clock d cols true stride [] fs =
        (Except.ok none, { fs := fs, step := 1, trace := [ExAction.checkCancel] }) := by
      simp [run_stream_export, withOutputGuard, hbody]
    rw [this]
    exact ⟨rfl, fun p => rfl⟩
  · have hbody : stream_export env clock d cols false stride []
        { fs := fs, step := 0, trace := [] } =
        (Except.ok (some 0),
          { fs := fs.write d (env.emptyBytes cols), step := 2,
            trace := [ExAction.checkCancel, ExAction.createFile d] }) := by
      simp [stream_export, exBind, exPure, raise_if_cancelled, create_file, hc]
    have : run_stream_export env clock d cols false stride [] fs =
        (Except.ok (some 0),
          { fs := fs.write d (env.emptyBytes cols), step := 2,
            trace := [ExAction.checkCancel, ExAction.createFile d] }) := by
      simp [run_stream_export, withOutputGuard, hbody]
    rw [this]
    exact ⟨rfl, FS.read_write_self fs d (env.emptyBytes cols)⟩

/-- A concrete environment in which the cancel flag is never set. -/
def envNeverCancelled : ExportEnv :=
  { cancelAt := fun _ => false
    now := fun _ => 0
    parseWb := fun _ => some ["Sheet1"]
    render := fun b _ _ _ _ => b ++ [9]
    emptyBytes := fun _ => [1, 2]
    rowBytes := fun _ => [3] }

theorem stream_zero_rows_policy_witness :
    (envNeverCancelled.cancelAt 0 = false) ∧
    ((run_stream_export envNeverCancelled clockW "d" ["c"] true 10 [] []).1 =
        Except.ok none ∧
      (run_stream_export envNeverCancelled clockW "d" ["c"] false 10 [] []).1 =
        Except.ok (some 0) ∧
      ((run_stream_export envNeverCancelled clockW "d" ["c"] false 10 [] []).2).fs.read "d" =
        some (envNeverCancelled.emptyBytes ["c"])) :=
  ⟨rfl,
   ((stream_zero_rows_policy envNeverCancelled clockW "d" ["c"] 10 [] rfl).1).1,
   ((stream_zero_rows_policy envNeverCancelled clockW "d" ["c"] 10 [] rfl).2).1,
   ((stream_zero_rows_policy envNeverCancelled clockW "d" ["c"] 10 [] rfl).2).2⟩

theorem withOutputGuard_fst {α : Type} (dest : String) (s : ExSt)
    (body : ExSt → Except CoreError α × ExSt) :
    (withOutputGuard dest s body).1 = (body s).1 := by
  have hg : withOutputGuard dest s body =
      match body s with
      | (Except.ok a, s') => (Except.ok a, s')
      | (Except.error e', s') =>
        match s.fs.read dest with
        | none =>
          (Except.error e',
            { s' with fs := s'.fs.remove dest, trace := s'.trace ++ [ExAction.removeFile dest] })
        | some b => (Except.error e', { s' with fs := s'.fs.write dest b }) := rfl
  rw [hg]
  rcases body s with ⟨res, s1⟩
  cases res with
  | ok a => rfl
  | error e' => cases s.fs.read dest <;> rfl

theorem withOutputGuard_ok {α : Type} (dest : String) (s : ExSt)
    (body : ExSt → Except CoreError α × ExSt) (a : α) (st' : ExSt)
    (h : body s = (Except.ok a, st')) :
    withOutputGuard dest s body = (Except.ok a, st') := by
  have hg : withOutputGuard dest s body =
      match body s with
      | (Except.ok a, s') => (Except.ok a, s')
      | (Except.error e', s') =>
        match s.fs.read dest with
        | none =>
          (Except.error e',
            { s' with fs := s'.fs.remove dest, trace := s'.trace ++ [ExAction.removeFile dest] })
        | some b => (Except.error e', { s' with fs := s'.fs.write dest b }) := rfl
  rw [hg, h]

theorem withOutputGuard_countP {α : Type} (dest : String) (s : ExSt)
    (body : ExSt → Except CoreError α × ExSt) (P : ExAction → Bool)
    (hP : P (ExAction.removeFile dest) = false) :
    ((withOutputGuard dest s body).2).trace.countP P = ((body s).2).trace.countP P := by
  have hg : withOutputGuard dest s body =
      match body s with
      | (Except.ok a, s') => (Except.ok a, s')
      | (Except.error e', s') =>
        match s.fs.read dest with
        | none =>
          (Except.error e',
            { s' with fs := s'.fs.remove dest, trace := s'.trace ++ [ExAction.removeFile dest] })
        | some b => (Except.error e', { s' with fs := s'.fs.write dest b }) := rfl
  rw [hg]
  rcases body s with ⟨res, s1⟩
  cases res with
  | ok a => rfl
  | error e' =>
    cases s.fs.read dest with
    | none => simp [List.countP_append, List.countP_cons, hP]
    | some b => rfl

/-- C2: for every template-strategy job whose fetch returned zero rows, no
action of the run ever opens or parses the template as a spreadsheet and
the sheet-name/start-cell parameters are never validated, whatever the
sheet-name, start-cell, cancellation and deadline situation; and whenever
the call returns normally it reports zero rows and the destination bytes
are exactly the template bytes. -/
theorem template_zero_rows_byte_copy (env : ExportEnv) (clock : DeadlineClock)
    (tp d sn sc : String) (ih : Bool) (cols : List String) (fs : FS) :
    ((run_export_to_template env clock tp d sn sc ih [] cols fs).2).trace.countP
        ExAction.isOpenOrValidate = 0 ∧
    (∀ k, (run_export_to_template env clock tp d sn sc ih [] cols fs).1 = Except.ok k →
      k = 0 ∧
      ((run_export_to_template env clock tp d sn sc ih [] cols fs).2).fs.read d =
        fs.read tp) := by
  cases hc0 : env.cancelAt 0 with
  | true =>
    have hbody : template_export env clock tp d sn sc ih [] cols ⟨fs, 0, []⟩ =
        (Except.error CoreError.cancelled, ⟨fs, 1, [ExAction.checkCancel]⟩) := by
      simp [template_export, exBind, raise_if_cancelled, hc0]
    constructor
    · simp only [run_export_to_template]
      rw [withOutputGuard_countP _ _ _ _ rfl, hbody]
      simp [List.countP_cons, ExAction.isOpenOrValidate]
    · intro k hk
      simp only [run_export_to_template] at hk
      rw [withOutputGuard_fst, hbody] at hk
      simp at hk
  | false =>
    cases hd1 : clock.check (env.now 1) "export" with
    | error e1 =>
      have hbody : template_export env clock tp d sn sc ih [] cols ⟨fs, 0, []⟩ =
          (Except.error e1,
            ⟨fs, 2, [ExAction.checkCancel, ExAction.checkDeadline]⟩) := by
        simp [template_export, exBind, raise_if_cancelled, check_deadline, hc0, hd1]
      constructor
      · simp only [run_export_to_template]
        rw [withOutputGuard_countP _ _ _ _ rfl, hbody]
        simp [List.countP_cons, ExAction.isOpenOrValidate]
      · intro k hk
        simp only [run_export_to_template] at hk
        rw [withOutputGuard_fst, hbody] at hk
        simp at hk
    | ok u1 =>
      cases htp : fs.read tp with
      | none =>
        have hbody : template_export env clock tp d sn sc ih [] cols ⟨fs, 0, []⟩ =
            (Except.error CoreError.writeError,
              ⟨fs, 3, [ExAction.checkCancel, ExAction.checkDeadline,
                ExAction.copyFile tp d]⟩) := by
          simp [template_export, exBind, raise_if_cancelled, check_deadline, copy_file,
            hc0, hd1, htp]
        constructor
        · simp only [run_export_to_template]
          rw [withOutputGuard_countP _ _ _ _ rfl, hbody]
          simp [List.countP_cons, ExAction.isOpenOrValidate]
        · intro k hk
          simp only [run_export_to_template] at hk
          rw [withOutputGuard_fst, hbody] at hk
          simp at hk
      | some tb =>
        cases hd2 : clock.check (env.now 3) "export" with
        | error e2 =>
          have hbody : template_export env clock tp d sn sc ih [] cols ⟨fs, 0, []⟩ =
              (Except.error e2,
                ⟨fs.write d tb, 4, [ExAction.checkCancel, ExAction.checkDeadline,
                  ExAction.copyFile tp d, ExAction.checkDeadline]⟩) := by
            simp [template_export, exBind, raise_if_cancelled, check_deadline, copy_file,
              hc0, hd1, htp, hd2]
          constructor
          · simp only [run_export_to_template]
            rw [withOutputGuard_countP _ _ _ _ rfl, hbody]
            simp [List.countP_cons, ExAction.isOpenOrValidate]
          · intro k hk
            simp only [run_export_to_template] at hk
            rw [withOutputGuard_fst, hbody] at hk
            simp at hk
        | ok u2 =>
          have hbody : template_export env clock tp d sn sc ih [] cols ⟨fs, 0, []⟩ =
              (Except.ok 0,
                ⟨fs.write d tb, 4, [ExAction.checkCancel, ExAction.checkDeadline,
                  ExAction.copyFile tp d, ExAction.checkDeadline]⟩) := by
            simp [template_export, exBind, exPure, raise_if_cancelled, check_deadline,
              copy_file, hc0, hd1, htp, hd2]
          have hrun : run_export_to_template env clock tp d sn sc ih [] cols fs =
              (Except.ok 0,
                ⟨fs.write d tb, 4, [ExAction.checkCancel, ExAction.checkDeadline,
                  ExAction.copyFile tp d, ExAction.checkDeadline]⟩) := by
            simp only [run_export_to_template]
            exact withOutputGuard_ok _ _ _ _ _ hbody
          rw [hrun]
          constructor
          · simp [List.countP_cons, ExAction.isOpenOrValidate]
          · intro k hk
            simp at hk
            subst hk
            exact ⟨rfl, by simp [FS.read_write_self, htp]⟩

theorem template_zero_rows_byte_copy_witness :
    ((run_export_to_template envNeverCancelled clockW "t" "d" "NoSuchSheet" "ZZZ9" true
        [] ["c"] [("t", [65, 66, 67])]).1 = Except.ok 0 →
      (0 : Nat) = 0 ∧
      ((run_export_to_template envNeverCancelled clockW "t" "d" "NoSuchSheet" "ZZZ9" true
        [] ["c"] [("t", [65, 66, 67])]).2).fs.read "d" =
        FS.read [("t", [65, 66, 67])] "t") ∧
    ((run_export_to_template envNeverCancelled clockW "t" "d" "NoSuchSheet" "ZZZ9" true
        [] ["c"] [("t", [65, 66, 67])]).2).trace.countP ExAction.isOpenOrValidate = 0 ∧
    ((run_export_to_template envNeverCancelled clockW "t" "d" "NoSuchSheet" "ZZZ9" true
        [] ["c"] [("t", [65, 66, 67])]).2).fs.read "d" = some [65, 66, 67] :=
  ⟨(template_zero_rows_byte_copy envNeverCancelled clockW "t" "d" "NoSuchSheet" "ZZZ9" true
      ["c"] [("t", [65, 66, 67])]).2 0,
   (template_zero_rows_byte_copy envNeverCancelled clockW "t" "d" "NoSuchSheet" "ZZZ9" true
      ["c"] [("t", [65, 66, 67])]).1,
   by decide⟩

/-- C4: for a template-strategy job with at least one row, when the job is
not cancelled at entry, the first deadline check passes, the template is
readable, and the cancel flag becomes set at the re-check immediately
after the template-copy step (step 3, after the copy at step 2), the run
copies exactly once, never opens the copied file as a workbook, never
executes the save step, raises `Cancelled`, and a destination that did not
exist before the call does not exist afterwards. -/
theorem template_cancel_after_copy (env : ExportEnv) (clock : DeadlineClock)
    (tp d sn sc : String) (ih : Bool) (r : List Int) (rs : List (List Int))
    (cols : List String) (fs : FS) (tb : List Nat)
    (hc0 : env.cancelAt 0 = false)
    (hd1 : clock.check (env.now 1) "export" = Except.ok ())
    (htp : fs.read tp = some tb)
    (hc3 : env.cancelAt 3 = true)
    (hdest : fs.read d = none) :
    (run_export_to_template env clock tp d sn sc ih (r :: rs) cols fs).1 =
        Except.error CoreError.cancelled ∧
    ((run_export_to_template env clock tp d sn sc ih (r :: rs) cols fs).2).trace.countP
        ExAction.isCopy = 1 ∧
    ((run_export_to_template env clock tp d sn sc ih (r :: rs) cols fs).2).trace.countP
        ExAction.isLoad = 0 ∧
    ((run_export_to_template env clock tp d sn sc ih (r :: rs) cols fs).2).trace.countP
        ExAction.isSave = 0 ∧
    ((run_export_to_template env clock tp d sn sc ih (r :: rs) cols fs).2).fs.read d =
        none := by
  have hbody : template_export env clock tp d sn sc ih (r :: rs) cols ⟨fs, 0, []⟩ =
      (Except.error CoreError.cancelled,
        ⟨fs.write d tb, 4, [ExAction.checkCancel, ExAction.checkDeadline,
          ExAction.copyFile tp d, ExAction.checkCancel]⟩) := by
    simp [template_export, exBind, raise_if_cancelled, check_deadline, copy_file,
      hc0, hd1, htp, hc3]
  have hfst : (run_export_to_template env clock tp d sn sc ih (r :: rs) cols fs).1 =
      Except.error CoreError.cancelled := by
    simp only [run_export_to_template]
    rw [withOutputGuard_fst, hbody]
  refine ⟨hfst, ?_, ?_, ?_, ?_⟩
  · simp only [run_export_to_template]
    rw [withOutputGuard_countP _ _ _ _ rfl, hbody]
    simp [List.countP_cons, ExAction.isCopy]
  · simp only [run_export_to_template]
    rw [withOutputGuard_countP _ _ _ _ rfl, hbody]
    simp [List.countP_cons, ExAction.isLoad]
  · simp only [run_export_to_template]
    rw [withOutputGuard_countP _ _ _ _ rfl, hbody]
    simp [List.countP_cons, ExAction.isSave]
  · have := withOutputGuard_error_read d ⟨fs, 0, []⟩
      (template_export env clock tp d sn sc ih (r :: rs) cols) CoreError.cancelled
      (by rw [withOutputGuard_fst, hbody])
    simp only [run_export_to_template]
    rw [this, hdest]

/-- A concrete environment in which the cancel flag becomes set from step 3
onwards (i.e. right after the template-copy step). -/
def envCancelAtStep3 : ExportEnv :=
  { cancelAt := fun i => decide (3 ≤ i)
    now := fun _ => 0
    parseWb := fun _ => some ["Sheet1"]
    render := fun b _ _ _ _ => b ++ [9]
    emptyBytes := fun _ => [1, 2]
    rowBytes := fun _ => [3] }

theorem template_cancel_after_copy_witness :
    (envCancelAtStep3.cancelAt 0 = false ∧
      clockW.check (envCancelAtStep3.now 1) "export" = Except.ok () ∧
      FS.read [("t", [65])] "t" = some [65] ∧
      envCancelAtStep3.cancelAt 3 = true ∧
      FS.read [("t", [65])] "d" = none) ∧
    ((run_export_to_template envCancelAtStep3 clockW "t" "d" "Sheet1" "A1" false
        [[1]] ["c"] [("t", [65])]).1 = Except.error CoreError.cancelled ∧
      ((run_export_to_template envCancelAtStep3 clockW "t" "d" "Sheet1" "A1" false
        [[1]] ["c"] [("t", [65])]).2).fs.read "d" = none) :=
  ⟨⟨by decide, by decide, by decide, by decide, by decide⟩,
   (template_cancel_after_copy envCancelAtStep3 clockW "t" "d" "Sheet1" "A1" false
      [1] [] ["c"] [("t", [65])] [65] (by decide) (by decide) (by decide)
      (by decide) (by decide)).1,
   (template_cancel_after_copy envCancelAtStep3 clockW "t" "d" "Sheet1" "A1" false
      [1] [] ["c"] [("t", [65])] [65] (by decide) (by decide) (by decide)
      (by decide) (by decide)).2.2.2.2⟩

theorem retry_after_fallback_ne_nil (ra? : Option String) (s : String)
    (h : retry_after_fallback_of ra? = some s) : s.data ≠ [] := by
  cases ra? with
  | none => simp [retry_after_fallback_of] at h
  | some ra =>
    simp only [retry_after_fallback_of] at h
    by_cases hemp : (pyStrip ra).data.isEmpty
    · simp [hemp] at h
    · by_cases hdig : pyIsDigit (pyStrip ra)
      · simp [hemp, hdig] at h
      · simp only [hemp, hdig, if_false, Bool.false_eq_true] at h
        have hne : (pyStrip ra).data ≠ [] := by
          intro hn
          rw [List.isEmpty_iff] at hemp
          exact hemp hn
        injection h with h'
        rw [← h']
        simp [List.take_eq_nil_iff]
        exact hne

theorem reset_return_ne_nil (env : TimeEnv) (rr? : Option String) (s : String)
    (hR : ∀ t x, env.fmtReset t = some x → x.data ≠ [])
    (h : ratelimit_reset_return env rr? = some s) : s.data ≠ [] := by
  cases rr? with
  | none => simp [ratelimit_reset_return] at h
  | some rr =>
    simp only [ratelimit_reset_return] at h
    by_cases hdig : pyIsDigit (pyStrip rr)
    · by_cases hle : pyDigitsToNat (pyStrip rr) ≤ env.now + _UPD_MAX_RESET_FUTURE_SECONDS
      · simp only [hdig, hle, if_true] at h
        exact hR _ _ h
      · simp [hdig, hle] at h
    · simp [hdig] at h

theorem parse_retry_hint_ne_nil (env : TimeEnv) (h : Option Headers)
    (hR : ∀ t x, env.fmtReset t = some x → x.data ≠ [])
    (s : String) (hs : _parse_retry_hint env h = some s) : s.data ≠ [] := by
  cases h with
  | none => simp [_parse_retry_hint] at hs
  | some hh =>
    simp only [_parse_retry_hint] at hs
    cases hrr : ratelimit_reset_return env hh.x_ratelimit_reset with
    | some r =>
      simp only [hrr] at hs
      injection hs with hs'
      rw [← hs']
      exact reset_return_ne_nil env hh.x_ratelimit_reset r hR hrr
    | none =>
      simp only [hrr] at hs
      by_cases ht : pyTruthy (retry_after_ts_of env hh.retry_after)
      · rw [if_pos ht] at hs
        rw [hs] at ht
        simpa [pyTruthy] using ht
      · rw [if_neg ht] at hs
        exact retry_after_fallback_ne_nil hh.retry_after s hs

/-- C9: for every `HTTPError` classified by `_classify_update_error`
(under the fact that the runtime's timestamp formatter never yields an
empty string, so a parsed retry hint is never falsy), status 429 is always
classified as kind `rate_limited`; status 403 is classified `rate_limited`
exactly when a retry hint was parsed from the headers or the stripped
`x-ratelimit-remaining` header equals `"0"`; and otherwise a 403 is
classified as kind `http` carrying status 403. -/
theorem classify_403_eval (env : TimeEnv) (h : Option Headers) :
    _classify_update_error env (PyExc.httpError 403 h) =
      if pyTruthy (_parse_retry_hint env h) = true ∨ ratelimit_remaining h = "0" then
        ("rate_limited", ⟨some 403, _parse_retry_hint env h⟩)
      else ("http", ⟨some 403, none⟩) := by
  simp [_classify_update_error]

theorem classify_http_rate_limited (env : TimeEnv) (h : Option Headers)
    (hR : ∀ t x, env.fmtReset t = some x → x.data ≠ []) :
    ((_classify_update_error env (PyExc.httpError 429 h)).1 = "rate_limited") ∧
    (((_classify_update_error env (PyExc.httpError 403 h)).1 = "rate_limited") ↔
      (_parse_retry_hint env h ≠ none ∨ ratelimit_remaining h = "0")) ∧
    ((_parse_retry_hint env h = none ∧ ratelimit_remaining h ≠ "0") →
      _classify_update_error env (PyExc.httpError 403 h) =
        ("http", ⟨some 403, none⟩)) := by
  have hiff : (pyTruthy (_parse_retry_hint env h) = true ∨ ratelimit_remaining h = "0") ↔
      (_parse_retry_hint env h ≠ none ∨ ratelimit_remaining h = "0") := by
    constructor
    · rintro (hc | hc)
      · left
        intro hn
        rw [hn] at hc
        simp [pyTruthy] at hc
      · exact Or.inr hc
    · rintro (hne | h0)
      · cases hp : _parse_retry_hint env h with
        | none => exact absurd hp hne
        | some x =>
          left
          have := parse_retry_hint_ne_nil env h hR x hp
          simp [hp, pyTruthy, List.isEmpty_iff, this]
      · exact Or.inr h0
  refine ⟨by simp [_classify_update_error], ?_, ?_⟩
  · rw [classify_403_eval]
    by_cases hcond : pyTruthy (_parse_retry_hint env h) = true ∨ ratelimit_remaining h = "0"
    · rw [if_pos hcond]
      simpa using hiff.mp hcond
    · rw [if_neg hcond]
      constructor
      · intro hk
        exact absurd hk (by decide)
      · intro hor
        exact absurd (hiff.mpr hor) hcond
  · rintro ⟨hp, hrem⟩
    rw [classify_403_eval, if_neg ?_]
    rintro (hc | hc)
    · rw [hp] at hc
      simp [pyTruthy] at hc
    · exact hrem hc

/-- A concrete time environment: the reset formatter always fails (falls
through), the local formatter yields a fixed stamp. -/
def timeEnvW : TimeEnv :=
  { now := 1000
    fmtLocal := fun _ => some "2026-01-01 00:00:00"
    fmtReset := fun _ => none }

/-- Concrete headers: a numeric `retry-after` and no other signals. -/
def headersW : Headers :=
  { retry_after := some "10"
    x_ratelimit_reset := none
    x_ratelimit_remaining := none }

theorem classify_http_rate_limited_witness :
    (∀ t x, timeEnvW.fmtReset t = some x → x.data ≠ []) ∧
    ((_classify_update_error timeEnvW (PyExc.httpError 429 (some headersW))).1 =
      "rate_limited") ∧
    (_parse_retry_hint timeEnvW (some headersW) ≠ none) ∧
    ((_classify_update_error timeEnvW (PyExc.httpError 403 (some headersW))).1 =
      "rate_limited") :=
  ⟨fun t x hx => by simp [timeEnvW] at hx,
   (classify_http_rate_limited timeEnvW (some headersW)
      (fun t x hx => by simp [timeEnvW] at hx)).1,
   by decide,
   ((classify_http_rate_limited timeEnvW (some headersW)
      (fun t x hx => by simp [timeEnvW] at hx)).2).1.mpr (Or.inl (by decide))⟩

theorem formatChars_head_ne (kwargs : List (String × String)) (fuel : Nat)
    (c : Char) (cs : List Char) (hc : ¬ c = '\x7b') (l : List Char)
    (h : formatChars kwargs fuel (c :: cs) = Except.ok l) : l ≠ [] := by
  cases fuel with
  | zero =>
    simp only [formatChars] at h
    injection h with h'
    rw [← h']
    simp
  | succ n =>
    simp only [formatChars, if_neg hc] at h
    cases hrec : formatChars kwargs n cs with
    | ok l' =>
      rw [hrec] at h
      injection h with h'
      rw [← h']
      simp
    | error e =>
      rw [hrec] at h
      simp at h

/-- True when the string is non-empty and does not begin with a `{`
placeholder (so one formatting pass keeps its head character). -/
def headNotBrace (s : String) : Bool :=
  match s.data with
  | [] => false
  | c :: _ => !(c = '\x7b')

theorem pyFormat_ok_ne_empty (s : String) (kwargs : List (String × String))
    (hh : headNotBrace s = true) (r : String)
    (h : pyFormat s kwargs = Except.ok r) : r ≠ "" := by
  simp only [pyFormat] at h
  cases hfc : formatChars kwargs s.data.length s.data with
  | ok l =>
    rw [hfc] at h
    injection h with h'
    cases hd : s.data with
    | nil => rw [headNotBrace, hd] at hh; simp at hh
    | cons c cs =>
      have hcb : ¬ c = '\x7b' := by
        rw [headNotBrace, hd] at hh
        simpa using hh
      rw [hd] at hfc
      have hl : l ≠ [] := formatChars_head_ne kwargs (c :: cs).length c cs hcb l hfc
      rw [← h']
      intro hcontr
      have := congrArg String.data hcontr
      simp at this
      exact hl this
  | error e =>
    rw [hfc] at h
    simp at h

theorem okOr_ne (x : Except Unit String) (d : String) (hd : d ≠ "")
    (hx : ∀ r, x = Except.ok r → r ≠ "") : okOr x d ≠ "" := by
  cases x with
  | ok r => exact hx r rfl
  | error e => exact hd

theorem pyOrStr_idem (a : Option String) (b : String) :
    pyOrStr a (pyOrStr a b) = pyOrStr a b := by
  cases a with
  | none => rfl
  | some s =>
    by_cases h : s.data.isEmpty <;> simp [pyOrStr, h]

theorem t_upd_plain_lang (lang key : String) :
    t_upd_plain lang key = t_upd_plain "en" key ∨
    t_upd_plain lang key = t_upd_plain "pl" key := by
  by_cases h1 : lang = "en"
  · subst h1; exact Or.inl rfl
  by_cases h2 : lang = "pl"
  · subst h2; exact Or.inr rfl
  left
  have e1 : (lang == "en") = false := beq_eq_false_iff_ne.mpr h1
  have e2 : (lang == "pl") = false := beq_eq_false_iff_ne.mpr h2
  have hd : langDict lang = [] := by
    simp [langDict, I18N_UPDATER, List.lookup, e1, e2]
  have hen : langDict "en" = (I18N_UPDATER.lookup "en").getD [] := rfl
  calc t_upd_plain lang key
      = pyOrStr (List.lookup key (langDict lang))
          (pyOrStr (List.lookup key (langDict "en")) key) := rfl
    _ = pyOrStr (List.lookup key (langDict "en")) key := by rw [hd]; rfl
    _ = pyOrStr (List.lookup key (langDict "en"))
          (pyOrStr (List.lookup key (langDict "en")) key) := (pyOrStr_idem _ _).symm
    _ = t_upd_plain "en" key := rfl

theorem t_upd_plain_used_ne (lang key : String)
    (hen : t_upd_plain "en" key ≠ "") (hpl : t_upd_plain "pl" key ≠ "") :
    t_upd_plain lang key ≠ "" := by
  rcases t_upd_plain_lang lang key with h | h <;> rw [h] <;> assumption

theorem headNotBrace_t_upd_plain (lang key : String)
    (hen : headNotBrace (t_upd_plain "en" key) = true)
    (hpl : headNotBrace (t_upd_plain "pl" key) = true) :
    headNotBrace (t_upd_plain lang key) = true := by
  rcases t_upd_plain_lang lang key with h | h <;> rw [h] <;> assumption

/-- C10: for every exception, language, and (possibly raising)
classification step, `_build_update_error_message` returns a non-empty
string and never raises; and whenever the classification step itself
raises, the result falls back to the generic `t_upd("UPD_ERR_GENERIC")`
message (the function is total by construction, which models "never
raises"). -/
theorem build_update_error_message_total
    (classify : PyExc → Except Unit (String × ClassifyParams))
    (lang : String) (exc : PyExc) :
    _build_update_error_message classify lang exc ≠ "" ∧
    (∀ u, classify exc = Except.error u →
      _build_update_error_message classify lang exc =
        t_upd_plain lang "UPD_ERR_GENERIC") := by
  have hfb : t_upd_plain lang "UPD_ERR_GENERIC" ≠ "" :=
    t_upd_plain_used_ne lang "UPD_ERR_GENERIC" (by decide) (by decide)
  constructor
  · rcases hcl : classify exc with u | ⟨kind, params⟩ <;>
      simp only [_build_update_error_message, hcl]
    · exact hfb
    · by_cases hk1 : kind = "network"
      · rw [if_pos hk1]
        have ht : t_upd lang "UPD_ERR_NETWORK" [] =
            Except.ok (t_upd_plain lang "UPD_ERR_NETWORK") := by simp [t_upd]
        rw [ht]
        simpa [okOr] using
          t_upd_plain_used_ne lang "UPD_ERR_NETWORK" (by decide) (by decide)
      rw [if_neg hk1]
      by_cases hk2 : kind = "timeout"
      · rw [if_pos hk2]
        have ht : t_upd lang "UPD_ERR_TIMEOUT" [] =
            Except.ok (t_upd_plain lang "UPD_ERR_TIMEOUT") := by simp [t_upd]
        rw [ht]
        simpa [okOr] using
          t_upd_plain_used_ne lang "UPD_ERR_TIMEOUT" (by decide) (by decide)
      rw [if_neg hk2]
      by_cases hk3 : kind = "http"
      · rw [if_pos hk3]
        have ht : t_upd lang "UPD_ERR_HTTP" [("status", pyStrOfStatus params.status)] =
            pyFormat (t_upd_plain lang "UPD_ERR_HTTP")
              [("status", pyStrOfStatus params.status)] := by simp [t_upd]
        rw [ht]
        refine okOr_ne _ _ hfb ?_
        intro r hr
        refine pyFormat_ok_ne_empty _ _ ?_ r hr
        exact headNotBrace_t_upd_plain lang "UPD_ERR_HTTP" (by decide) (by decide)
      rw [if_neg hk3]
      by_cases hk4 : kind = "rate_limited"
      · rw [if_pos hk4]
        have ht : ∀ st ra, t_upd lang "UPD_ERR_RATE_LIMITED"
              [("status", st), ("retry_at", ra)] =
            pyFormat (t_upd_plain lang "UPD_ERR_RATE_LIMITED")
              [("status", st), ("retry_at", ra)] := by
          intro st ra; simp [t_upd]
        rw [ht]
        refine okOr_ne _ _ hfb ?_
        intro r hr
        refine pyFormat_ok_ne_empty _ _ ?_ r hr
        exact headNotBrace_t_upd_plain lang "UPD_ERR_RATE_LIMITED" (by decide) (by decide)
      rw [if_neg hk4]
      by_cases hk5 : kind = "json"
      · rw [if_pos hk5]
        have ht : t_upd lang "UPD_ERR_JSON" [] =
            Except.ok (t_upd_plain lang "UPD_ERR_JSON") := by simp [t_upd]
        rw [ht]
        simpa [okOr] using
          t_upd_plain_used_ne lang "UPD_ERR_JSON" (by decide) (by decide)
      rw [if_neg hk5]
      exact hfb
  · intro u hcl
    simp only [_build_update_error_message, hcl]

theorem build_update_error_message_total_witness :
    ((fun _ : PyExc => (Except.error () : Except Unit (String × ClassifyParams)))
        PyExc.otherExc = Except.error ()) ∧
    (_build_update_error_message (fun _ => Except.error ()) "xx" PyExc.otherExc ≠ "" ∧
      _build_update_error_message (fun _ => Except.error ()) "xx" PyExc.otherExc =
        t_upd_plain "xx" "UPD_ERR_GENERIC") :=
  ⟨rfl,
   (build_update_error_message_total (fun _ => Except.error ()) "xx" PyExc.otherExc).1,
   (build_update_error_message_total (fun _ => Except.error ()) "xx" PyExc.otherExc).2 () rfl⟩
